import Mathlib

/-!
Shallow embedding of the Todo_app task-tracking web application
(`app/models.py`, `app/database.py`, `app/main.py`) and proofs about its
request handlers.

The database is modelled as in-memory lists of rows; a handler is a pure
function from the request inputs and the database state to an
`Except PyErr` result carrying the new state and the HTTP response.
An uncaught Python exception (`ValueError` from `int(...)`) is the
`.error` case, in which the transaction is not committed and the
database is unchanged.
-/

namespace Todo

/-- Status enum from `app/models.py`: `PENDING = "Pending"`, `COMPLETED = "Completed"`. -/
inductive Status where
  | pending
  | completed
deriving DecidableEq, Repr

/-- Priority enum from `app/models.py`: `LOW = "Low"`, `NORMAL = "Normal"`, `HIGH = "High"`. -/
inductive Priority where
  | low
  | normal
  | high
deriving DecidableEq, Repr

/-- Column value the SQLAlchemy `Enum` type binds for a submitted priority
value when the row is flushed: a `Priority` member or its name string looks
up to the member's name (the stored value), a member's value string such as
`"High"` hits the same entry through `str`-enum hashing, and — the type's
`validate_strings` option being false by default — every other string is
passed through to the store unvalidated. -/
def Priority.bindValue (s : String) : String :=
  if s = "Low" ∨ s = "LOW" then "LOW"
  else if s = "Normal" ∨ s = "NORMAL" then "NORMAL"
  else if s = "High" ∨ s = "HIGH" then "HIGH"
  else s

/-- Decode applied to a stored priority column value when a row is read
back: a member name yields the member, and the result processor raises
`LookupError` on any other stored value — modelled as `none`. -/
def Priority.ofDbValue? (s : String) : Option Priority :=
  if s = "LOW" then some .low
  else if s = "NORMAL" then some .normal
  else if s = "HIGH" then some .high
  else none

/-- Calendar date (no time component), as Python's `datetime.date`. -/
structure Date where
  year : Nat
  month : Nat
  day : Nat
deriving DecidableEq, Repr

/-- Chronological strict order on dates; Python compares dates
lexicographically by (year, month, day). -/
def Date.lt (a b : Date) : Prop :=
  a.year < b.year ∨
    (a.year = b.year ∧ (a.month < b.month ∨ (a.month = b.month ∧ a.day < b.day)))

instance (a b : Date) : Decidable (Date.lt a b) := by
  unfold Date.lt; exact inferInstance

/-- Chronological non-strict order on dates. -/
def Date.le (a b : Date) : Prop :=
  a.year < b.year ∨
    (a.year = b.year ∧ (a.month < b.month ∨ (a.month = b.month ∧ a.day ≤ b.day)))

instance (a b : Date) : Decidable (Date.le a b) := by
  unfold Date.le; exact inferInstance

/-- Gregorian leap-year rule, as in Python's `calendar`/`datetime`. -/
def isLeap (y : Nat) : Bool :=
  (y % 4 = 0 && y % 100 ≠ 0) || y % 400 = 0

/-- Number of days in a month (0 for an invalid month number). -/
def daysInMonth (y m : Nat) : Nat :=
  if m = 1 ∨ m = 3 ∨ m = 5 ∨ m = 7 ∨ m = 8 ∨ m = 10 ∨ m = 12 then 31
  else if m = 4 ∨ m = 6 ∨ m = 9 ∨ m = 11 then 30
  else if m = 2 then (if isLeap y then 29 else 28)
  else 0

/-- Numeric value of a list of ASCII digit characters. -/
def digitsToNat (cs : List Char) : Nat :=
  cs.foldl (fun acc c => acc * 10 + (c.toNat - 48)) 0

/-- Model of Python's `date.fromisoformat`: accepts exactly `YYYY-MM-DD`
with a valid calendar date (`MINYEAR = 1`), returns `none` where Python
raises `ValueError`. -/
def date_fromisoformat (s : String) : Option Date :=
  match s.toList with
  | [y1, y2, y3, y4, s1, m1, m2, s2, d1, d2] =>
    if s1 = '-' ∧ s2 = '-' ∧ ([y1, y2, y3, y4, m1, m2, d1, d2].all Char.isDigit) then
      let y := digitsToNat [y1, y2, y3, y4]
      let m := digitsToNat [m1, m2]
      let d := digitsToNat [d1, d2]
      if 1 ≤ y ∧ 1 ≤ m ∧ m ≤ 12 ∧ 1 ≤ d ∧ d ≤ daysInMonth y m then
        some ⟨y, m, d⟩
      else none
    else none
  | _ => none

/-- Whitespace characters stripped by Python's `int(str)`. -/
def isPySpace (c : Char) : Bool :=
  c = ' ' || c = '\t' || c = '\n' || c = '\x0d' || c = '\x0b' || c = '\x0c'

/-- Accumulates the decimal digits (with single underscores allowed between
digits) after the first digit of a Python integer literal string. -/
def pyDigitsRest (acc : Nat) : List Char → Option Nat
  | [] => some acc
  | '_' :: c :: cs =>
    if c.isDigit then pyDigitsRest (acc * 10 + (c.toNat - 48)) cs else none
  | '_' :: [] => none
  | c :: cs =>
    if c = '_' then none
    else if c.isDigit then pyDigitsRest (acc * 10 + (c.toNat - 48)) cs else none

/-- Digit run of a Python integer string: nonempty, starts with a digit. -/
def pyDigits : List Char → Option Nat
  | [] => none
  | c :: cs => if c.isDigit then pyDigitsRest (c.toNat - 48) cs else none

/-- Model of Python's `int(s)` on a string: strips surrounding whitespace,
allows one optional sign, then ASCII decimal digits with underscores
between digits; `none` where Python raises `ValueError`. -/
def pyIntParse (s : String) : Option Int :=
  let cs := ((s.toList.dropWhile isPySpace).reverse.dropWhile isPySpace).reverse
  match cs with
  | '-' :: rest => (pyDigits rest).map fun n => -(n : Int)
  | '+' :: rest => (pyDigits rest).map fun n => (n : Int)
  | rest => (pyDigits rest).map fun n => (n : Int)

/-- User row from `app/models.py`. -/
structure User where
  id : Int
  username : String
  hashed_password : String
deriving DecidableEq, Repr

/-- Task row from `app/models.py`, at the granularity the default SQLite
store persists it. `priority` is the raw string held by the enum-typed
column (a `VARCHAR` with no CHECK constraint): `models.py` declares the
`Priority` enum with default `NORMAL`, whose bind value is `"NORMAL"`, but
the column also holds unknown strings passed through by the ORM (see
`Priority.bindValue`). `status` is only ever written as a `Status` member
by the code itself, so it is kept at the decoded enum level. `created_on`
is the creation timestamp (`datetime.now`), modelled as an abstract tick
supplied by the caller. -/
structure Task where
  id : Int
  title : String
  deadline : Date
  priority : String := "NORMAL"
  status : Status := .pending
  created_on : Nat := 0
  ownerId : Option Int := none
deriving DecidableEq, Repr

/-- The two tables of the schema (`app/database.py` creates them at startup). -/
structure DB where
  users : List User
  tasks : List Task
deriving DecidableEq, Repr

/-- Python exceptions that can escape a handler in this embedding:
`ValueError`, raised by `int(...)` on an unparseable cookie value. -/
inductive PyErr where
  | valueError
deriving DecidableEq, Repr

/-- HTTP response as the handlers build it: an optional redirect target or
rendered template, an optional inline template error, an optional
`flash_msg` cookie, and the `user_id` cookie operations. -/
structure Response where
  url : Option String := none
  templateName : Option String := none
  err : Option String := none
  flash : Option String := none
  deleteUserCookie : Bool := false
  setUserId : Option String := none
deriving DecidableEq, Repr

/-- Plain `RedirectResponse(url=u)` with no cookie changes. -/
def redirectResp (u : String) : Response := { url := some u }

/-- Redirect that also sets the short-lived `flash_msg` cookie. -/
def redirectFlash (u msg : String) : Response :=
  { url := some u, flash := some msg }

/-- Rendered template, optionally with an inline error message. -/
def templateResp (name : String) (e : Option String) : Response :=
  { templateName := some name, err := e }

/-- Background email job as scheduled by `background_tasks.add_task` in
`add_task`: subject, recipient address, and the payload dict. -/
structure EmailJob where
  subject : String
  email_to : String
  body_title : String
  body_deadline : String
deriving DecidableEq, Repr

/-- Model of `"@" in user.username` (Python substring membership of the
single character `@`). -/
def containsAt (s : String) : Bool := s.toList.contains '@'

/-- Modelled from the spec: `app/auth.py` is not among the given sources;
section 4.2 of the spec specifies `hash(plaintext) -> digest` as an external
one-way primitive with no further structure. Only injectivity-free opacity
matters to the verified claims, so the digest is an uninterpreted tagging. -/
def get_password_hash (plaintext : String) : String :=
  "bcrypt$" ++ plaintext

/-- Fresh primary key for a task row (store-generated autoincrement id). -/
def freshTaskId (db : DB) : Int :=
  (db.tasks.map Task.id).foldr (fun a b => max a b) 0 + 1

/-- Fresh primary key for a user row (store-generated autoincrement id). -/
def freshUserId (db : DB) : Int :=
  (db.users.map User.id).foldr (fun a b => max a b) 0 + 1

/-- Model of `get_current_user` in `app/main.py`: a missing or empty
`user_id` cookie is falsy and yields `None`; otherwise `int(user_id)`
(raising `ValueError` on a non-integer string) and a primary-key lookup
`session.get(User, ...)`. -/
def get_current_user (cookie : Option String) (db : DB) : Except PyErr (Option User) :=
  match cookie with
  | none => .ok none
  | some uid =>
    if uid = "" then .ok none
    else
      match pyIntParse uid with
      | none => .error .valueError
      | some n => .ok (db.users.find? fun u => u.id = n)

/-- Deadline order used by the dashboard query `order_by(Task.deadline)`. -/
def taskLe (a b : Task) : Prop := Date.le a.deadline b.deadline

instance (a b : Task) : Decidable (taskLe a b) := by
  unfold taskLe; exact inferInstance

/-- Model of the `dashboard` handler (`GET /`): redirect to login when no
user resolves (`.ok none`), otherwise the current user's tasks ordered by
deadline ascending (`.ok (some tasks)`). -/
def dashboard (cookie : Option String) (db : DB) : Except PyErr (Option (List Task)) :=
  match get_current_user cookie db with
  | .error e => .error e
  | .ok none => .ok none
  | .ok (some u) =>
    .ok (some (List.insertionSort taskLe (db.tasks.filter fun t => t.ownerId = some u.id)))

/-- Result of the `add_task` handler: committed database state, HTTP
response, and the background email jobs scheduled by the request. -/
structure AddResult where
  db : DB
  resp : Response
  jobs : List EmailJob
deriving DecidableEq, Repr

/-- Model of the `add_task` handler (`POST /add`), mirroring its control
flow: resolve user; parse the deadline (`ValueError` yields a bare
redirect); reject past deadlines with an error flash; persist the task —
the SQLModel table model skips validation on construction and the
SQLAlchemy `Enum` column binds the submitted priority string per
`Priority.bindValue`, passing unknown strings through to the store
unvalidated, so the insert always commits; then schedule one email job
exactly when the submitted priority string is `"High"` and the username
contains `@`. -/
def add_task (cookie : Option String) (title deadline priorityStr : String)
    (today : Date) (now : Nat) (db : DB) : Except PyErr AddResult :=
  match get_current_user cookie db with
  | .error e => .error e
  | .ok none => .ok ⟨db, redirectResp "/login", []⟩
  | .ok (some u) =>
    match date_fromisoformat deadline with
    | none => .ok ⟨db, redirectResp "/", []⟩
    | some deadline_date =>
      if Date.lt deadline_date today then
        .ok ⟨db, redirectFlash "/" "Error: Cannot add tasks in the past!", []⟩
      else
        let new_task : Task :=
          { id := freshTaskId db, title := title, deadline := deadline_date,
            priority := Priority.bindValue priorityStr, status := .pending,
            created_on := now, ownerId := some u.id }
        let db' : DB := { db with tasks := db.tasks ++ [new_task] }
        let jobs : List EmailJob :=
          if priorityStr = "High" ∧ containsAt u.username = true then
            [⟨"High Priority Task Assigned", u.username, title, deadline⟩]
          else []
        .ok ⟨db', redirectFlash "/" "Task added successfully!", jobs⟩

/-- The status flip performed by `complete_task`. -/
def toggle : Status → Status
  | .pending => .completed
  | .completed => .pending

/-- Model of the `complete_task` handler (`GET /complete/{task_id}`):
primary-key lookup, ownership check, toggle and commit; silent redirect
otherwise. -/
def complete_task (cookie : Option String) (task_id : Int) (db : DB) :
    Except PyErr (DB × Response) :=
  match get_current_user cookie db with
  | .error e => .error e
  | .ok none => .ok (db, redirectResp "/login")
  | .ok (some u) =>
    match db.tasks.find? (fun t => t.id = task_id) with
    | none => .ok (db, redirectResp "/")
    | some t =>
      if t.ownerId = some u.id then
        .ok ({ db with
                tasks := db.tasks.map fun x =>
                  if x.id = task_id then { x with status := toggle x.status } else x },
              redirectResp "/")
      else .ok (db, redirectResp "/")

/-- Model of the `delete_task` handler (`GET /delete/{task_id}`): delete the
row by primary key only when it exists and is owned; always redirect with
the `Task deleted` flash. -/
def delete_task (cookie : Option String) (task_id : Int) (db : DB) :
    Except PyErr (DB × Response) :=
  match get_current_user cookie db with
  | .error e => .error e
  | .ok none => .ok (db, redirectResp "/login")
  | .ok (some u) =>
    match db.tasks.find? (fun t => t.id = task_id) with
    | none => .ok (db, redirectFlash "/" "Task deleted")
    | some t =>
      if t.ownerId = some u.id then
        .ok ({ db with tasks := db.tasks.filter fun x => ¬ x.id = task_id },
              redirectFlash "/" "Task deleted")
      else .ok (db, redirectFlash "/" "Task deleted")

/-- Model of the `delete_account` handler (`GET /delete_account`): delete
every task owned by the current user, then the user row, then redirect to
login clearing the `user_id` cookie. -/
def delete_account (cookie : Option String) (db : DB) :
    Except PyErr (DB × Response) :=
  match get_current_user cookie db with
  | .error e => .error e
  | .ok none => .ok (db, redirectResp "/login")
  | .ok (some u) =>
    let db' : DB :=
      { users := db.users.filter fun x => ¬ x.id = u.id,
        tasks := db.tasks.filter fun t => ¬ t.ownerId = some u.id }
    .ok (db', { url := some "/login", flash := some "Account deleted successfully.",
                deleteUserCookie := true })

/-- Model of the `signup` handler (`POST /signup`): reject with an inline
template error when the username already exists, otherwise insert the user
with a hashed password and redirect to login. -/
def signup (username password : String) (db : DB) : DB × Response :=
  match db.users.find? (fun u => u.username = username) with
  | some _ => (db, templateResp "auth/signup.html" (some "Username already taken"))
  | none =>
    let new_user : User :=
      { id := freshUserId db, username := username,
        hashed_password := get_password_hash password }
    ({ db with users := db.users ++ [new_user] }, redirectResp "/login")

/-- Database state resulting from a `complete_task` request (the prior
state when the handler raised). -/
def completeDB (cookie : Option String) (task_id : Int) (db : DB) : DB :=
  match complete_task cookie task_id db with
  | .ok (d, _) => d
  | .error _ => db

/-- Status of the task row with the given primary key, when present. -/
def taskStatus (db : DB) (task_id : Int) : Option Status :=
  (db.tasks.find? (fun x => x.id = task_id)).map Task.status

/-- Background jobs scheduled by an `add_task` request; an uncaught
exception means the email logic was never reached, so no job. -/
def scheduledJobs (r : Except PyErr AddResult) : List EmailJob :=
  match r with
  | .ok a => a.jobs
  | .error _ => []

/-! ### Fixtures used by the witness theorems -/

/-- Fixture: a user whose username is an email address. -/
def uAlice : User := { id := 1, username := "alice@example.com", hashed_password := "h" }

/-- Fixture: a second user. -/
def uBob : User := { id := 2, username := "bob", hashed_password := "h2" }

/-- Fixture: a pending task owned by the first user. -/
def tAlice : Task := { id := 3, title := "Report", deadline := ⟨2026, 11, 5⟩, ownerId := some 1 }

/-- Fixture: a task owned by the second user. -/
def tBob : Task := { id := 7, title := "Groceries", deadline := ⟨2026, 12, 1⟩, ownerId := some 2 }

/-- Fixture database with both users and both tasks. -/
def dbFix : DB := { users := [uAlice, uBob], tasks := [tAlice, tBob] }

/-! ### Helper lemmas -/

/-- The current user depends only on the `users` table. -/
lemma get_current_user_users_eq (cookie : Option String) (db db' : DB)
    (h : db.users = db'.users) :
    get_current_user cookie db = get_current_user cookie db' := by
  unfold get_current_user
  rw [h]

/-- A map whose function preserves the search predicate commutes with `find?`. -/
lemma find?_map_of_pred_eq {g : Task → Task} {p : Task → Bool}
    (hg : ∀ x, p (g x) = p x) :
    ∀ l : List Task, (l.map g).find? p = (l.find? p).map g
  | [] => rfl
  | a :: l => by
    by_cases h : p a = true
    · rw [List.map_cons, List.find?_cons_of_pos _ (by rw [hg]; exact h),
        List.find?_cons_of_pos _ h]
      rfl
    · rw [List.map_cons, List.find?_cons_of_neg _ (by rw [hg]; exact h),
        List.find?_cons_of_neg _ h, find?_map_of_pred_eq hg l]

/-- Rows of a table with no duplicate primary keys are determined by their key. -/
lemma eq_of_id_eq_of_nodup {l : List Task} (hnd : (l.map Task.id).Nodup)
    {a b : Task} (ha : a ∈ l) (hb : b ∈ l) (hid : a.id = b.id) : a = b :=
  List.inj_on_of_nodup_map hnd ha hb hid

/-- Shape of `complete_task` on an existing task owned by the current user. -/
lemma complete_task_owned (cookie : Option String) (u : User) (task_id : Int)
    (db : DB) (t : Task)
    (hu : get_current_user cookie db = .ok (some u))
    (hf : db.tasks.find? (fun x => x.id = task_id) = some t)
    (hown : t.ownerId = some u.id) :
    complete_task cookie task_id db
      = .ok ({ db with tasks := db.tasks.map fun x =>
                if x.id = task_id then { x with status := toggle x.status } else x },
             redirectResp "/") := by
  simp only [complete_task, hu, hf]
  rw [if_pos hown]

/-- No task row with the given id is owned by `u` (either no row has the id,
or the row's `owner_id` differs from `u.id`). -/
def notOwnedBy (db : DB) (task_id : Int) (u : User) : Prop :=
  ∀ t ∈ db.tasks, t.id = task_id → ¬ t.ownerId = some u.id

instance (db : DB) (task_id : Int) (u : User) : Decidable (notOwnedBy db task_id u) := by
  unfold notOwnedBy; exact inferInstance

/-! ### Claims -/

/-- C1: a `/complete/{id}` or `/delete/{id}` request whose id names no task,
or a task whose `owner_id` differs from the resolved current user's id, is a
silent no-op: the handler returns the unchanged database state and a bare
redirect, so a user can never complete or delete a task owned by a
different user. -/
theorem foreign_task_mutation_noop
    (cookie : Option String) (u : User) (task_id : Int) (db : DB)
    (hu : get_current_user cookie db = .ok (some u))
    (hno : notOwnedBy db task_id u) :
    complete_task cookie task_id db = .ok (db, redirectResp "/") ∧
    delete_task cookie task_id db = .ok (db, redirectFlash "/" "Task deleted") := by
  have hkey : ∀ t, db.tasks.find? (fun x => x.id = task_id) = some t →
      ¬ t.ownerId = some u.id := by
    intro t hf
    exact hno t (List.mem_of_find?_eq_some hf) (by simpa using List.find?_some hf)
  constructor
  · simp only [complete_task, hu]
    cases hf : db.tasks.find? (fun t => t.id = task_id) with
    | none => rfl
    | some t => simp [hkey t hf]
  · simp only [delete_task, hu]
    cases hf : db.tasks.find? (fun t => t.id = task_id) with
    | none => rfl
    | some t => simp [hkey t hf]

/-- Witness for C1: user 1 attempts to complete and delete task 7, which is
owned by user 2; both requests leave the database unchanged. -/
theorem foreign_task_mutation_noop_witness :
    complete_task (some "1") 7 dbFix = .ok (dbFix, redirectResp "/") ∧
    delete_task (some "1") 7 dbFix = .ok (dbFix, redirectFlash "/" "Task deleted") :=
  foreign_task_mutation_noop (some "1") uAlice 7 dbFix (by rfl) (by decide)

/-- C2: an `/add` request whose deadline parses to a date strictly before
today is rejected with an error flash and persists nothing: the database
after the request equals the database before it, and no email job is
scheduled. -/
theorem add_task_past_deadline_rejected
    (cookie : Option String) (u : User) (title deadline priorityStr : String)
    (today : Date) (now : Nat) (db : DB) (d : Date)
    (hu : get_current_user cookie db = .ok (some u))
    (hparse : date_fromisoformat deadline = some d)
    (hpast : Date.lt d today) :
    add_task cookie title deadline priorityStr today now db
      = .ok ⟨db, redirectFlash "/" "Error: Cannot add tasks in the past!", []⟩ := by
  simp only [add_task, hu, hparse]
  rw [if_pos hpast]

/-- Witness for C2: adding a task with deadline 2020-01-01 when today is
2026-10-12 leaves the fixture database unchanged. -/
theorem add_task_past_deadline_rejected_witness :
    add_task (some "1") "T" "2020-01-01" "Normal" ⟨2026, 10, 12⟩ 0 dbFix
      = .ok ⟨dbFix, redirectFlash "/" "Error: Cannot add tasks in the past!", []⟩ :=
  add_task_past_deadline_rejected (some "1") uAlice "T" "2020-01-01" "Normal"
    ⟨2026, 10, 12⟩ 0 dbFix ⟨2020, 1, 1⟩ (by rfl) (by rfl) (by decide)

/-- C4: toggling completion twice on an existing task owned by the current
user returns its status to the original value; `toggle` itself is an
involution sending Pending to Completed and back. -/
theorem complete_toggle_involution
    (cookie : Option String) (u : User) (task_id : Int) (db : DB) (t : Task)
    (hu : get_current_user cookie db = .ok (some u))
    (hf : db.tasks.find? (fun x => x.id = task_id) = some t)
    (hown : t.ownerId = some u.id) :
    taskStatus (completeDB cookie task_id db) task_id = some (toggle t.status) ∧
    taskStatus (completeDB cookie task_id (completeDB cookie task_id db)) task_id
      = some t.status ∧
    (∀ s, toggle (toggle s) = s) := by
  have htid : t.id = task_id := by
    simpa using List.find?_some hf
  have hg : ∀ x : Task,
      (fun y : Task => decide (y.id = task_id))
        ((fun x : Task => if x.id = task_id then { x with status := toggle x.status } else x) x)
      = decide (x.id = task_id) := by
    intro x
    by_cases h : x.id = task_id <;> simp [h]
  have h1 : completeDB cookie task_id db
      = { db with tasks := db.tasks.map fun x =>
            if x.id = task_id then { x with status := toggle x.status } else x } := by
    unfold completeDB
    rw [complete_task_owned cookie u task_id db t hu hf hown]
  have hf1 : ((db.tasks.map fun x =>
        if x.id = task_id then { x with status := toggle x.status } else x).find?
        (fun x => x.id = task_id))
      = some { t with status := toggle t.status } := by
    rw [find?_map_of_pred_eq hg, hf]
    simp [htid]
  have hu1 : get_current_user cookie
      { db with tasks := db.tasks.map fun x =>
          if x.id = task_id then { x with status := toggle x.status } else x }
      = .ok (some u) :=
    (get_current_user_users_eq cookie _ db rfl).trans hu
  have h2 : completeDB cookie task_id (completeDB cookie task_id db)
      = { db with tasks := (db.tasks.map fun x =>
            if x.id = task_id then { x with status := toggle x.status } else x).map fun x =>
            if x.id = task_id then { x with status := toggle x.status } else x } := by
    rw [h1]
    unfold completeDB
    rw [complete_task_owned cookie u task_id _ { t with status := toggle t.status } hu1 hf1 hown]
  refine ⟨?_, ?_, fun s => by cases s <;> rfl⟩
  · rw [h1]
    unfold taskStatus
    show ((db.tasks.map fun x =>
      if x.id = task_id then { x with status := toggle x.status } else x).find?
      (fun x => x.id = task_id)).map Task.status = some (toggle t.status)
    rw [hf1]
    rfl
  · rw [h2]
    unfold taskStatus
    show (((db.tasks.map fun x =>
      if x.id = task_id then { x with status := toggle x.status } else x).map fun x =>
      if x.id = task_id then { x with status := toggle x.status } else x).find?
      (fun x => x.id = task_id)).map Task.status = some t.status
    rw [find?_map_of_pred_eq hg, hf1]
    simp only [Option.map, if_pos htid]
    show some (toggle (toggle t.status)) = some t.status
    cases h : t.status <;> rfl

/-- Witness for C4: user 1 toggles task 3 twice; its status passes through
Completed and returns to Pending. -/
theorem complete_toggle_involution_witness :
    taskStatus (completeDB (some "1") 3 dbFix) 3 = some (toggle tAlice.status) ∧
    taskStatus (completeDB (some "1") 3 (completeDB (some "1") 3 dbFix)) 3
      = some tAlice.status ∧
    (∀ s, toggle (toggle s) = s) :=
  complete_toggle_involution (some "1") uAlice 3 dbFix tAlice
    (by rfl) (by rfl) (by rfl)

/-- C5: `delete_account` deletes exactly the tasks whose `owner_id` is the
current user's id (tasks of every other user survive unchanged, in order),
then the user row, and responds with a redirect that clears the session
cookie; afterwards a primary-key lookup of any task id that was owned by
the user returns nothing. -/
theorem delete_account_cascades
    (cookie : Option String) (u : User) (db : DB)
    (hu : get_current_user cookie db = .ok (some u))
    (hnd : (db.tasks.map Task.id).Nodup) :
    delete_account cookie db
      = .ok ({ users := db.users.filter fun x => ¬ x.id = u.id,
               tasks := db.tasks.filter fun t => ¬ t.ownerId = some u.id },
             { url := some "/login", flash := some "Account deleted successfully.",
               deleteUserCookie := true }) ∧
    (∀ task_id t, db.tasks.find? (fun x => x.id = task_id) = some t →
      t.ownerId = some u.id →
      (db.tasks.filter fun x => ¬ x.ownerId = some u.id).find?
        (fun x => x.id = task_id) = none) := by
  constructor
  · simp only [delete_account, hu]
  · intro task_id t hf hown
    rw [List.find?_eq_none]
    intro x hx hpx
    have hmem : x ∈ db.tasks := (List.mem_filter.mp hx).1
    have hnot : ¬ x.ownerId = some u.id := by
      simpa using (List.mem_filter.mp hx).2
    have hxid : x.id = task_id := by simpa using hpx
    have htid : t.id = task_id := by simpa using List.find?_some hf
    have hxt : x = t :=
      eq_of_id_eq_of_nodup hnd hmem (List.mem_of_find?_eq_some hf)
        (hxid.trans htid.symm)
    rw [hxt] at hnot
    exact hnot hown

/-- Witness for C5: user 1 deletes their account; task 3 (theirs) is gone and
no longer found, task 7 (user 2's) survives. -/
theorem delete_account_cascades_witness :
    delete_account (some "1") dbFix
      = .ok ({ users := dbFix.users.filter fun x => ¬ x.id = uAlice.id,
               tasks := dbFix.tasks.filter fun t => ¬ t.ownerId = some uAlice.id },
             { url := some "/login", flash := some "Account deleted successfully.",
               deleteUserCookie := true }) ∧
    (∀ task_id t, dbFix.tasks.find? (fun x => x.id = task_id) = some t →
      t.ownerId = some uAlice.id →
      (dbFix.tasks.filter fun x => ¬ x.ownerId = some uAlice.id).find?
        (fun x => x.id = task_id) = none) :=
  delete_account_cascades (some "1") uAlice dbFix (by rfl) (by decide)

/-- C6: a sign-up request with an already-stored username is rejected with
an inline template error and creates no row, and a sign-up request always
preserves distinctness of stored usernames. -/
theorem signup_duplicate_username
    (username password : String) (db : DB) :
    ((∃ u ∈ db.users, u.username = username) →
       signup username password db
         = (db, templateResp "auth/signup.html" (some "Username already taken"))) ∧
    ((db.users.map User.username).Nodup →
       ((signup username password db).1.users.map User.username).Nodup) := by
  constructor
  · intro hex
    have hsome : (db.users.find? fun u => u.username = username).isSome := by
      rw [List.find?_isSome]
      obtain ⟨u, hmem, he⟩ := hex
      exact ⟨u, hmem, by simpa using he⟩
    obtain ⟨v, hv⟩ := Option.isSome_iff_exists.mp hsome
    simp only [signup, hv]
  · intro hnd
    cases hv : db.users.find? (fun u => u.username = username) with
    | some v =>
      simp only [signup, hv]
      exact hnd
    | none =>
      simp only [signup, hv, List.map_append]
      rw [List.nodup_append]
      refine ⟨hnd, List.nodup_singleton _, ?_⟩
      intro a ha hb
      have haeq : a = username := by simpa using hb
      obtain ⟨w, hw, hweq⟩ := List.mem_map.mp ha
      have : ¬ w.username = username := by
        simpa using List.find?_eq_none.mp hv w hw
      exact this (hweq.trans haeq)

/-- Witness for C6: signing up again as `alice@example.com` is rejected and
leaves the fixture database, whose usernames are distinct, with distinct
usernames. -/
theorem signup_duplicate_username_witness :
    signup "alice@example.com" "pw" dbFix
      = (dbFix, templateResp "auth/signup.html" (some "Username already taken")) ∧
    ((signup "alice@example.com" "pw" dbFix).1.users.map User.username).Nodup := by
  have h := signup_duplicate_username "alice@example.com" "pw" dbFix
  exact ⟨h.1 ⟨uAlice, by decide, by decide⟩, h.2 (by decide)⟩

instance : IsTotal Task taskLe :=
  ⟨fun a b => by unfold taskLe Date.le; omega⟩

instance : IsTrans Task taskLe :=
  ⟨fun a b c => by unfold taskLe Date.le; omega⟩

/-- C8: for an authenticated request, the dashboard renders a list holding
exactly the tasks whose `owner_id` is the current user's id, sorted by
deadline ascending. -/
theorem dashboard_owned_sorted
    (cookie : Option String) (u : User) (db : DB)
    (hu : get_current_user cookie db = .ok (some u)) :
    ∃ l, dashboard cookie db = .ok (some l) ∧
      (∀ t, t ∈ l ↔ t ∈ db.tasks ∧ t.ownerId = some u.id) ∧
      l.Perm (db.tasks.filter fun t => t.ownerId = some u.id) ∧
      List.Sorted taskLe l := by
  refine ⟨List.insertionSort taskLe (db.tasks.filter fun t => t.ownerId = some u.id),
    by simp only [dashboard, hu], ?_, List.perm_insertionSort _ _,
    List.sorted_insertionSort _ _⟩
  intro t
  rw [(List.perm_insertionSort taskLe _).mem_iff, List.mem_filter]
  simp

/-- Witness for C8: user 1's dashboard over the fixture database. -/
theorem dashboard_owned_sorted_witness :
    ∃ l, dashboard (some "1") dbFix = .ok (some l) ∧
      (∀ t, t ∈ l ↔ t ∈ dbFix.tasks ∧ t.ownerId = some uAlice.id) ∧
      l.Perm (dbFix.tasks.filter fun t => t.ownerId = some uAlice.id) ∧
      List.Sorted taskLe l :=
  dashboard_owned_sorted (some "1") uAlice dbFix (by rfl)

/-- C3 counterexample: a task-creation request by an authenticated user
whose username contains `@`, submitting priority `"High"` but a past
deadline, schedules zero notification jobs, so over all `/add` requests the
claimed iff (one job exactly when priority is High and the username has an
`@`) is false. -/
theorem add_task_notification_claim_cex :
    get_current_user (some "1") dbFix = .ok (some uAlice) ∧
    containsAt uAlice.username = true ∧
    scheduledJobs (add_task (some "1") "Report" "2020-01-01" "High"
      ⟨2026, 10, 12⟩ 0 dbFix) = [] :=
  ⟨rfl, rfl, rfl⟩

/-- C3 amended: for every `/add` request by an authenticated user whose
deadline parses and is not in the past (the requests that create a task),
exactly one notification job — addressed to the user's username with the
task's title and deadline as payload — is scheduled when the submitted
priority is `"High"` and the username contains `@`, and zero jobs are
scheduled for every other combination; requests rejected over the deadline
schedule zero jobs (see the counterexample). -/
theorem add_task_notification_iff
    (cookie : Option String) (u : User) (title deadline priorityStr : String)
    (today : Date) (now : Nat) (db : DB) (d : Date)
    (hu : get_current_user cookie db = .ok (some u))
    (hparse : date_fromisoformat deadline = some d)
    (hok : ¬ Date.lt d today) :
    scheduledJobs (add_task cookie title deadline priorityStr today now db)
      = if priorityStr = "High" ∧ containsAt u.username = true then
          [⟨"High Priority Task Assigned", u.username, title, deadline⟩]
        else [] := by
  simp only [add_task, hu, hparse]
  rw [if_neg hok]
  rfl

/-- Witness for the amended C3: a valid High-priority task for a user whose
username is an email address schedules exactly one job. -/
theorem add_task_notification_iff_witness :
    scheduledJobs (add_task (some "1") "Report" "2099-01-01" "High"
      ⟨2026, 10, 12⟩ 0 dbFix)
      = if "High" = "High" ∧ containsAt uAlice.username = true then
          [⟨"High Priority Task Assigned", uAlice.username, "Report", "2099-01-01"⟩]
        else [] :=
  add_task_notification_iff (some "1") uAlice "Report" "2099-01-01" "High"
    ⟨2026, 10, 12⟩ 0 dbFix ⟨2099, 1, 1⟩ (by rfl) (by rfl) (by decide)

/-- C7 counterexample: an authenticated `/add` request whose deadline string
does not parse is answered with a bare redirect carrying no flash cookie at
all, so the claim that both deadline-failure cases include the error flash
is false. -/
theorem add_task_parse_failure_no_flash_cex :
    get_current_user (some "1") dbFix = .ok (some uAlice) ∧
    date_fromisoformat "tomorrow" = none ∧
    add_task (some "1") "Report" "tomorrow" "High" ⟨2026, 10, 12⟩ 0 dbFix
      = .ok ⟨dbFix, redirectResp "/", []⟩ ∧
    (redirectResp "/").flash = none :=
  ⟨rfl, rfl, rfl, rfl⟩

/-- C7 amended: for an authenticated `/add` request, a deadline string that
fails to parse yields a redirect with no flash cookie, while a deadline
strictly before today yields a redirect carrying the error flash cookie;
in both cases nothing is persisted. -/
theorem add_task_rejection_flash
    (cookie : Option String) (u : User) (title deadline priorityStr : String)
    (today : Date) (now : Nat) (db : DB)
    (hu : get_current_user cookie db = .ok (some u)) :
    (date_fromisoformat deadline = none →
       add_task cookie title deadline priorityStr today now db
         = .ok ⟨db, redirectResp "/", []⟩ ∧ (redirectResp "/").flash = none) ∧
    (∀ d, date_fromisoformat deadline = some d → Date.lt d today →
       add_task cookie title deadline priorityStr today now db
         = .ok ⟨db, redirectFlash "/" "Error: Cannot add tasks in the past!", []⟩ ∧
       (redirectFlash "/" "Error: Cannot add tasks in the past!").flash
         = some "Error: Cannot add tasks in the past!") := by
  constructor
  · intro hp
    refine ⟨?_, rfl⟩
    simp only [add_task, hu, hp]
  · intro d hp hlt
    refine ⟨?_, rfl⟩
    simp only [add_task, hu, hp]
    rw [if_pos hlt]

/-- Witness for the amended C7: the unparseable deadline `"tomorrow"` gives
the bare redirect, and the past deadline 2020-01-01 gives the error flash. -/
theorem add_task_rejection_flash_witness :
    (add_task (some "1") "Report" "tomorrow" "Low" ⟨2026, 10, 12⟩ 0 dbFix
      = .ok ⟨dbFix, redirectResp "/", []⟩ ∧ (redirectResp "/").flash = none) ∧
    (add_task (some "1") "Report" "2020-01-01" "Low" ⟨2026, 10, 12⟩ 0 dbFix
      = .ok ⟨dbFix, redirectFlash "/" "Error: Cannot add tasks in the past!", []⟩ ∧
     (redirectFlash "/" "Error: Cannot add tasks in the past!").flash
       = some "Error: Cannot add tasks in the past!") := by
  have h1 := add_task_rejection_flash (some "1") uAlice "Report" "tomorrow" "Low"
    ⟨2026, 10, 12⟩ 0 dbFix (by rfl)
  have h2 := add_task_rejection_flash (some "1") uAlice "Report" "2020-01-01" "Low"
    ⟨2026, 10, 12⟩ 0 dbFix (by rfl)
  exact ⟨h1.1 (by rfl), h2.2 ⟨2020, 1, 1⟩ (by rfl) (by decide)⟩

/-- C9, evaluated at the failing input: an authenticated `/add` request with
the non-member priority string `"Urgent"` and a valid future deadline
commits the task row with the raw string `"Urgent"` as its priority column
value and answers with the success flash — the string passes through the
ORM's bind unchanged, and the stored value decodes to no `Priority` member,
so the claimed closed-enum invariant is violated by the program (and later
reads of the row raise `LookupError` in the result processor). -/
theorem add_task_unknown_priority_persisted_raw :
    add_task (some "1") "T" "2099-01-01" "Urgent" ⟨2026, 10, 12⟩ 0 dbFix
      = .ok ⟨{ dbFix with tasks := dbFix.tasks ++
            [{ id := freshTaskId dbFix, title := "T", deadline := ⟨2099, 1, 1⟩,
               priority := "Urgent", status := .pending, created_on := 0,
               ownerId := some uAlice.id }] },
           redirectFlash "/" "Task added successfully!", []⟩ ∧
    Priority.bindValue "Urgent" = "Urgent" ∧
    Priority.ofDbValue? "Urgent" = none :=
  ⟨rfl, rfl, rfl⟩

/-- C10: a non-empty `user_id` cookie that `int()` cannot parse makes
`get_current_user` raise `ValueError`, and every protected route propagates
the exception instead of redirecting to login; only a missing or empty
cookie takes the `None`/redirect-to-login path. -/
theorem cookie_parse_failure_raises
    (c : String) (db : DB)
    (hne : ¬ c = "") (hbad : pyIntParse c = none) :
    get_current_user (some c) db = .error .valueError ∧
    dashboard (some c) db = .error .valueError ∧
    (∀ title deadline p today now,
       add_task (some c) title deadline p today now db = .error .valueError) ∧
    (∀ tid, complete_task (some c) tid db = .error .valueError) ∧
    (∀ tid, delete_task (some c) tid db = .error .valueError) ∧
    delete_account (some c) db = .error .valueError ∧
    get_current_user none db = .ok none ∧
    get_current_user (some "") db = .ok none := by
  have hg : get_current_user (some c) db = .error .valueError := by
    unfold get_current_user
    dsimp only
    rw [if_neg hne, hbad]
  refine ⟨hg, ?_, ?_, ?_, ?_, ?_, rfl, rfl⟩
  · simp only [dashboard, hg]
  · intro title deadline p today now
    simp only [add_task, hg]
  · intro tid
    simp only [complete_task, hg]
  · intro tid
    simp only [delete_task, hg]
  · simp only [delete_account, hg]

/-- Witness for C10: the cookie value `"abc"` is nonempty and unparseable;
every protected route raises on it. -/
theorem cookie_parse_failure_raises_witness :
    get_current_user (some "abc") dbFix = .error .valueError ∧
    dashboard (some "abc") dbFix = .error .valueError ∧
    (∀ title deadline p today now,
       add_task (some "abc") title deadline p today now dbFix = .error .valueError) ∧
    (∀ tid, complete_task (some "abc") tid dbFix = .error .valueError) ∧
    (∀ tid, delete_task (some "abc") tid dbFix = .error .valueError) ∧
    delete_account (some "abc") dbFix = .error .valueError ∧
    get_current_user none dbFix = .ok none ∧
    get_current_user (some "") dbFix = .ok none :=
  cookie_parse_failure_raises "abc" dbFix (by decide) (by rfl)

end Todo
